import Mathlib

/-!
# Verification of the crawl web crawler (src/crawl.cpp)

A shallow embedding of the crawler's core: the link-discovery pass
(`follow_links`, crawl.cpp lines 111-173), the HTML content-type test
(`is_html`, lines 175-177), and the completion-handling run loop of `main`
(lines 264-319), together with theorems settling the specification's claims.

External collaborators (libcurl transport, libxml2 HTML parsing and URI
resolution) are abstracted: a fetched page is modelled by its terminal
result (transport outcome, HTTP status, content type, body size, and the
list of href strings the HTML collaborator would extract after relative
resolution); the order of completion events is left nondeterministic via a
step relation.
-/

set_option maxRecDepth 10000

namespace Crawl

/-- Characters of a URI reference up to (excluding) the first `#`.  Models
crawl.cpp lines 148-152: `xmlParseURIReference` into `uri`, freeing
`uri->fragment`, then `xmlSaveUri`, i.e. removing the fragment component of
the candidate link. -/
def stripFrag (s : String) : String := String.mk (s.data.takeWhile (fun c => c ≠ '#'))

/-- Byte-wise prefix test: models `strncmp(s, p, strlen(p)) == 0` on
NUL-free C strings (crawl.cpp lines 117 and 155). -/
def strPrefixOf (p s : String) : Bool := List.isPrefixOf p.data s.data

/-- Scheme filter of crawl.cpp line 155: the serialized link must start
with "http://" or "https://". -/
def isHttpLink (link : String) : Bool :=
  strPrefixOf "http://" link || strPrefixOf "https://" link

/-- Modelled from the spec: the Dedup Graph (spec 4.1) is implemented by
`NGraph::tGraph<string>` from `ngraph.hpp`, which is not under src/.  Nodes
are URLs; edges are a set of ordered pairs; `insert_edge` creates missing
endpoint nodes implicitly; membership (`find != end`) tests the node set. -/
structure Graph where
  nodes : List String
  edges : List (String × String)
deriving DecidableEq

def Graph.empty : Graph := ⟨[], []⟩

/-- Node membership: models `network.find(link) != network.end()`. -/
def Graph.hasNode (g : Graph) (u : String) : Bool := g.nodes.any (fun v => v = u)

def Graph.insertNode (g : Graph) (u : String) : Graph :=
  if g.nodes.any (fun v => v = u) then g else ⟨u :: g.nodes, g.edges⟩

/-- Models `network.insert_edge(url, link)`: insert both endpoints if
absent, then the edge (set semantics, duplicates collapse). -/
def Graph.insert_edge (g : Graph) (a b : String) : Graph :=
  let g1 := (g.insertNode a).insertNode b
  if g1.edges.any (fun e => e = (a, b)) then g1 else ⟨g1.nodes, (a, b) :: g1.edges⟩

/-- The href loop of `follow_links` (crawl.cpp lines 138-169).  `hrefs` are
the candidate strings after relative resolution (`xmlBuildURI`); each is
fragment-stripped, then filtered by length (`strlen(link) < 20` skips) and
scheme; an eligible link already in the graph only gets an edge; a fresh
one gets an edge and is scheduled, and after scheduling the loop stops when
the post-incremented counter had reached `max_link_per_page`
(`if (count++ == max_link_per_page) break`).  Returns the updated graph,
the scheduled links in order, and the final counter value. -/
def follow_links_go (cap : Nat) (url : String) (g : Graph) (count : Nat) :
    List String → Graph × List String × Nat
  | [] => (g, [], count)
  | href :: rest =>
    let link := stripFrag href
    if link.length < 20 then
      follow_links_go cap url g count rest
    else if isHttpLink link then
      if g.hasNode link then
        follow_links_go cap url (g.insert_edge url link) count rest
      else
        let g2 := g.insert_edge url link
        if count = cap then
          (g2, [link], count + 1)
        else
          let r := follow_links_go cap url g2 (count + 1) rest
          (r.1, link :: r.2.1, r.2.2)
    else
      follow_links_go cap url g count rest

/-- `follow_links` (crawl.cpp lines 111-173).  Returns immediately with no
edges and count 0 unless the page's (effective) `url` begins with
`start_url` (line 117).  HTML-parse failure or an empty anchor set is
modelled by an empty `hrefs` list. -/
def follow_links (start_url : String) (cap : Nat) (g : Graph) (url : String)
    (hrefs : List String) : Graph × List String × Nat :=
  if strPrefixOf start_url url then follow_links_go cap url g 0 hrefs
  else (g, [], 0)

/-- Substring search: `hasInfix pat l` holds when `pat` occurs contiguously
in `l`; models C `strstr` returning non-NULL. -/
def hasInfix (pat : List Char) : List Char → Bool
  | [] => pat.isEmpty
  | c :: rest => List.isPrefixOf pat (c :: rest) || hasInfix pat rest

/-- `is_html` (crawl.cpp lines 175-177): the content type is non-NULL,
`strlen(ctype) > 10`, and `strstr(ctype, "text/html")` finds a match. -/
def is_html : Option String → Bool
  | none => false
  | some ctype => decide (10 < ctype.length) && hasInfix "text/html".data ctype.data

/-- CLI-configurable parameters of the run (crawl.cpp lines 47-50, 57).
`max_total` and `max_requests` are C `int`s; `max_link_per_page` is a
`size_t`. -/
structure Config where
  start_url : String
  max_total : Int
  max_requests : Int
  max_link_per_page : Nat

/-- Terminal outcome of one transfer, as read back in the completion loop:
either `CURLE_OK` with HTTP status, `CURLINFO_CONTENT_TYPE` (NULL modelled
as `none`), body size, and the hrefs the HTML collaborator extracts from
the body, or a transport failure. -/
inductive FetchResult where
  | ok (status : Int) (ctype : Option String) (bodySize : Nat) (hrefs : List String)
  | fail

/-- Run-loop state owned by `main`: the dedup graph, the `pending` and
`complete` counters (C `int`s, so `Int` here), the broken-link list, and
the multiset of URLs currently added to the multi handle and not yet
retired (the in-flight transfers). -/
structure CrawlState where
  graph : Graph
  pending : Int
  complete : Int
  broken_links : List (Int × String)
  inflight : List String
deriving DecidableEq

/-- Handling of one `CURLMSG_DONE` message (crawl.cpp lines 283-317) for
the transfer of `url` with terminal result `r`: on `CURLE_OK` with status
200, HTML content type and body over 100 bytes, admission
(`pending < max_requests && (complete + pending) < max_total`) gates a
`follow_links` pass whose scheduled links join the in-flight set and whose
count is added to `pending`; a non-200 status appends a broken link; a
transport failure does neither.  Afterwards the handle is retired
unconditionally: removed from in-flight, `complete++`, `pending--`. -/
def handle_msg (cfg : Config) (st : CrawlState) (url : String) (r : FetchResult) :
    CrawlState :=
  let st1 :=
    match r with
    | .ok status ctype bodySize hrefs =>
      if status = 200 then
        if is_html ctype ∧ 100 < bodySize then
          if st.pending < cfg.max_requests ∧ st.complete + st.pending < cfg.max_total then
            let d := follow_links cfg.start_url cfg.max_link_per_page st.graph url hrefs
            { st with
                graph := d.1
                pending := st.pending + d.2.2
                inflight := st.inflight ++ d.2.1 }
          else st
        else st
      else { st with broken_links := st.broken_links ++ [(status, url)] }
    | .fail => st
  { st1 with
      inflight := st1.inflight.erase url
      complete := st1.complete + 1
      pending := st1.pending - 1 }

/-- Initial run-loop state (crawl.cpp lines 266, 271-273): the seed URL is
added to the multi handle without touching `pending`, counters start at 0,
graph and broken-link list empty. -/
def initState (cfg : Config) : CrawlState :=
  ⟨Graph.empty, 0, 0, [], [cfg.start_url]⟩

/-- One step of the run loop: some in-flight transfer becomes terminal
(the transport decides which, hence a relation) and is processed by
`handle_msg` with the result the web assigns to its URL. -/
inductive Step (cfg : Config) (web : String → FetchResult) :
    CrawlState → CrawlState → Prop
  | done (st : CrawlState) (url : String) (hmem : url ∈ st.inflight) :
      Step cfg web st (handle_msg cfg st url (web url))

/-- States reachable by the run loop from the initial state. -/
def Reachable (cfg : Config) (web : String → FetchResult) (st : CrawlState) : Prop :=
  Relation.ReflTransGen (Step cfg web) (initState cfg) st

/-! ## Derived characterizations of `handle_msg` -/

/-- The discovery actually performed by `handle_msg`: the `follow_links`
result when all of status-200, HTML content type, body size and admission
hold, and a no-op triple otherwise. -/
def discovery (cfg : Config) (st : CrawlState) (url : String) :
    FetchResult → Graph × List String × Nat
  | .ok status ctype bodySize hrefs =>
    if status = 200 ∧ (is_html ctype ∧ 100 < bodySize) ∧
        (st.pending < cfg.max_requests ∧ st.complete + st.pending < cfg.max_total) then
      follow_links cfg.start_url cfg.max_link_per_page st.graph url hrefs
    else (st.graph, [], 0)
  | .fail => (st.graph, [], 0)

/-- The broken-link entries appended by `handle_msg`. -/
def broken_of (url : String) : FetchResult → List (Int × String)
  | .ok status _ _ _ => if status = 200 then [] else [(status, url)]
  | .fail => []

/-! ## Concrete runs used as evidence -/

/-- Content type of a typical HTML response. -/
def htmlCT : Option String := some "text/html; charset=utf-8"

def c1cfg : Config := ⟨"http://x.example/start", 2, 1, 2⟩

def c1links : List String :=
  ["http://x.example/start/a", "http://x.example/start/b",
   "http://x.example/start/c", "http://x.example/start/d"]

def c1web : String → FetchResult := fun u =>
  if u = "http://x.example/start" then .ok 200 htmlCT 200 c1links else .fail

def c1st : CrawlState :=
  handle_msg c1cfg (initState c1cfg) "http://x.example/start" (c1web "http://x.example/start")

def c3cfg : Config := ⟨"http://self.example/loop", 20000, 500, 20⟩

def c3web : String → FetchResult := fun u =>
  if u = "http://self.example/loop" then .ok 200 htmlCT 200 ["http://self.example/loop"]
  else .fail

def c3st : CrawlState :=
  handle_msg c3cfg (initState c3cfg) "http://self.example/loop" (c3web "http://self.example/loop")

def c4cfg : Config := ⟨"http://t.example/aaaaaa", 1, 500, 20⟩

def c4web : String → FetchResult := fun u =>
  if u = "http://t.example/aaaaaa" then .ok 200 htmlCT 200 ["http://t.example/aaaaaa/one"]
  else .fail

def c4st : CrawlState :=
  handle_msg c4cfg (initState c4cfg) "http://t.example/aaaaaa" (c4web "http://t.example/aaaaaa")

def c5cfg : Config := ⟨"http://q.example/start", 20000, 0, 20⟩

def c5st : CrawlState :=
  handle_msg c5cfg (initState c5cfg) "http://q.example/start"
    (.ok 200 htmlCT 200 ["http://q.example/start/sub1"])

def c9cfg : Config := ⟨"http://n.example/start", 20000, 500, 20⟩

def c9web : String → FetchResult := fun _ => .fail

def c9st : CrawlState :=
  handle_msg c9cfg (initState c9cfg) "http://n.example/start" (c9web "http://n.example/start")

def c10cfg : Config := ⟨"http://h.example/start", 20000, 500, 20⟩

lemma handle_msg_eq (cfg : Config) (st : CrawlState) (url : String) (r : FetchResult) :
    handle_msg cfg st url r =
      ⟨(discovery cfg st url r).1,
       st.pending + (discovery cfg st url r).2.2 - 1,
       st.complete + 1,
       st.broken_links ++ broken_of url r,
       (st.inflight ++ (discovery cfg st url r).2.1).erase url⟩ := by
  cases r with
  | fail => simp [handle_msg, discovery, broken_of]
  | ok status ctype bodySize hrefs =>
    by_cases h1 : status = 200
    · by_cases h2 : is_html ctype ∧ 100 < bodySize
      · by_cases h3 : st.pending < cfg.max_requests ∧ st.complete + st.pending < cfg.max_total
        · simp [handle_msg, discovery, broken_of, h1, h2, h3]
        · simp [handle_msg, discovery, broken_of, h1, h2, h3]
      · simp [handle_msg, discovery, broken_of, h1, h2]
    · simp [handle_msg, discovery, broken_of, h1]

/-! ## Counting lemmas for discovery -/

lemma go_spec (cap : Nat) (url : String) (hrefs : List String) :
    ∀ (g : Graph) (c : Nat), c ≤ cap →
      (follow_links_go cap url g c hrefs).2.2
          = c + (follow_links_go cap url g c hrefs).2.1.length ∧
      (follow_links_go cap url g c hrefs).2.2 ≤ cap + 1 := by
  induction hrefs with
  | nil =>
    intro g c hc
    simp only [follow_links_go, List.length_nil]
    omega
  | cons href rest ih =>
    intro g c hc
    simp only [follow_links_go]
    split_ifs with h1 h2 h3 h4
    · exact ih g c hc
    · exact ih (g.insert_edge url (stripFrag href)) c hc
    · exact ⟨rfl, show c + 1 ≤ cap + 1 by omega⟩
    · have hih := ih (g.insert_edge url (stripFrag href)) (c + 1) (by omega)
      refine ⟨?_, ?_⟩
      · show (follow_links_go cap url (g.insert_edge url (stripFrag href)) (c + 1) rest).2.2
            = c + (stripFrag href ::
                (follow_links_go cap url (g.insert_edge url (stripFrag href)) (c + 1) rest).2.1).length
        rw [List.length_cons]
        omega
      · show (follow_links_go cap url (g.insert_edge url (stripFrag href)) (c + 1) rest).2.2
            ≤ cap + 1
        omega
    · exact ih g c hc

lemma follow_links_spec (s : String) (cap : Nat) (g : Graph) (url : String)
    (hrefs : List String) :
    (follow_links s cap g url hrefs).2.2 = (follow_links s cap g url hrefs).2.1.length ∧
    (follow_links s cap g url hrefs).2.2 ≤ cap + 1 := by
  unfold follow_links
  split_ifs with h
  · have := go_spec cap url hrefs g 0 (Nat.zero_le cap)
    omega
  · simp

lemma discovery_spec (cfg : Config) (st : CrawlState) (url : String) (r : FetchResult) :
    (discovery cfg st url r).2.2 = (discovery cfg st url r).2.1.length ∧
    (discovery cfg st url r).2.2 ≤ cfg.max_link_per_page + 1 := by
  cases r with
  | fail => simp [discovery]
  | ok status ctype bodySize hrefs =>
    simp only [discovery]
    split_ifs with hc
    · exact follow_links_spec cfg.start_url cfg.max_link_per_page st.graph url hrefs
    · simp

lemma discovery_admission (cfg : Config) (st : CrawlState) (url : String) (r : FetchResult) :
    (discovery cfg st url r).2.2 = 0 ∨
      (st.pending < cfg.max_requests ∧ st.complete + st.pending < cfg.max_total) := by
  cases r with
  | fail => simp [discovery]
  | ok status ctype bodySize hrefs =>
    simp only [discovery]
    split_ifs with hc
    · exact Or.inr hc.2.2
    · simp

/-! ## Run-loop invariants -/

lemma step_pi {cfg : Config} {web : String → FetchResult} {st st' : CrawlState}
    (h : Step cfg web st st')
    (hpi : st.pending + 1 = (st.inflight.length : Int)) :
    st'.pending + 1 = (st'.inflight.length : Int) := by
  cases h with
  | done url hmem =>
    rw [handle_msg_eq]
    have hd := discovery_spec cfg st url (web url)
    have hlen : ((st.inflight ++ (discovery cfg st url (web url)).2.1).erase url).length
        = st.inflight.length + (discovery cfg st url (web url)).2.1.length - 1 := by
      rw [List.length_erase_of_mem (List.mem_append_left _ hmem), List.length_append]
    have hpos : 1 ≤ st.inflight.length := List.length_pos.mpr (List.ne_nil_of_mem hmem)
    dsimp only
    omega

lemma step_caps {cfg : Config} {web : String → FetchResult} {st st' : CrawlState}
    (h : Step cfg web st st')
    (hp : st.pending ≤ cfg.max_requests + cfg.max_link_per_page)
    (hcp : st.complete + st.pending ≤ cfg.max_total + cfg.max_link_per_page) :
    st'.pending ≤ cfg.max_requests + cfg.max_link_per_page ∧
    st'.complete + st'.pending ≤ cfg.max_total + cfg.max_link_per_page := by
  cases h with
  | done url hmem =>
    rw [handle_msg_eq]
    have hd := discovery_spec cfg st url (web url)
    have ha := discovery_admission cfg st url (web url)
    dsimp only
    rcases ha with ha | ha
    · omega
    · omega

lemma reachable_pi (cfg : Config) (web : String → FetchResult) (st : CrawlState)
    (h : Reachable cfg web st) :
    st.pending + 1 = (st.inflight.length : Int) := by
  induction h with
  | refl => simp [initState]
  | tail hsteps hstep ih => exact step_pi hstep ih

lemma reachable_caps (cfg : Config) (web : String → FetchResult) (st : CrawlState)
    (hmr : 0 ≤ cfg.max_requests) (hmt : 0 ≤ cfg.max_total)
    (h : Reachable cfg web st) :
    st.pending ≤ cfg.max_requests + cfg.max_link_per_page ∧
    st.complete + st.pending ≤ cfg.max_total + cfg.max_link_per_page := by
  induction h with
  | refl => simp only [initState]; omega
  | tail hsteps hstep ih => exact step_caps hstep ih.1 ih.2

/-! ## Fragment stripping lemmas -/

lemma tw_idem (p : Char → Bool) (l : List Char) :
    (l.takeWhile p).takeWhile p = l.takeWhile p := by
  induction l with
  | nil => rfl
  | cons c rest ih =>
    by_cases h : p c
    · simp [List.takeWhile_cons, h, ih]
    · simp [List.takeWhile_cons, h]

lemma stripFrag_idem (s : String) : stripFrag (stripFrag s) = stripFrag s := by
  unfold stripFrag
  rw [tw_idem]

lemma tw_append_stop (p : Char → Bool) (l1 l2 : List Char) (h : ∀ c ∈ l1, p c)
    (c0 : Char) (hc0 : p c0 = false) :
    (l1 ++ c0 :: l2).takeWhile p = l1 := by
  induction l1 with
  | nil => simp [List.takeWhile_cons, hc0]
  | cons c rest ih =>
    have hc : p c := h c (by simp)
    simp only [List.cons_append, List.takeWhile_cons, hc, if_true]
    rw [ih (fun x hx => h x (by simp [hx]))]

lemma stripFrag_hash_append (u f : String) (h : ∀ c ∈ u.data, c ≠ '#') :
    stripFrag (u ++ "#" ++ f) = u := by
  unfold stripFrag
  have hsharp : ("#" : String).data = ['#'] := by decide
  have hd : (u ++ "#" ++ f).data = u.data ++ '#' :: f.data := by
    rw [String.data_append, String.data_append, hsharp]
    simp
  rw [hd, tw_append_stop]
  · intro c hc
    simp [h c hc]
  · simp

/-! ## Claims -/

/-- C1 counterexample: from the initial state of a run with
`max_requests = 1` and `max_total = 2`, one run-loop step (the seed page,
HTML with four fresh eligible links, `max_link_per_page = 2`) yields
`pending = 2 > max_requests`, three in-flight fetches, and four fetches
ever scheduled, exceeding `max_total = 2` — refuting the claim that
pending fetches never exceed `max_requests` and total scheduled fetches
never exceed `max_total`. -/
theorem C1_counterexample :
    Reachable c1cfg c1web c1st ∧
    c1cfg.max_requests = 1 ∧ c1st.pending = 2 ∧ c1st.inflight.length = 3 ∧
    c1cfg.max_total = 2 ∧ c1st.complete + (c1st.inflight.length : Int) = 4 :=
  ⟨Relation.ReflTransGen.tail Relation.ReflTransGen.refl
      (Step.done (initState c1cfg) "http://x.example/start" (by decide)),
    by decide, by decide, by decide, by decide, by decide⟩

/-- C1 (amended): admission is checked once per page before a batch of up
to `max_link_per_page + 1` schedules, so the caps hold only with that
slack: in every reachable state of every run (with nonnegative caps),
`pending` never exceeds `max_requests + max_link_per_page`, the in-flight
count never exceeds `max_requests + max_link_per_page + 1`, and the number
of fetches ever scheduled (retired plus in-flight) never exceeds
`max_total + max_link_per_page + 1`. -/
theorem C1_caps_with_slack (cfg : Config) (web : String → FetchResult) (st : CrawlState)
    (hmr : 0 ≤ cfg.max_requests) (hmt : 0 ≤ cfg.max_total)
    (h : Reachable cfg web st) :
    st.pending ≤ cfg.max_requests + cfg.max_link_per_page ∧
    st.complete + st.pending ≤ cfg.max_total + cfg.max_link_per_page ∧
    (st.inflight.length : Int) ≤ cfg.max_requests + cfg.max_link_per_page + 1 ∧
    st.complete + (st.inflight.length : Int) ≤ cfg.max_total + cfg.max_link_per_page + 1 := by
  have h1 := reachable_pi cfg web st h
  have h2 := reachable_caps cfg web st hmr hmt h
  exact ⟨h2.1, h2.2, by omega, by omega⟩

/-- C1 witness: the amended bounds evaluated on the concrete
one-step run of the counterexample. -/
theorem C1_caps_with_slack_witness :
    c1st.pending ≤ c1cfg.max_requests + c1cfg.max_link_per_page ∧
    c1st.complete + c1st.pending ≤ c1cfg.max_total + c1cfg.max_link_per_page ∧
    (c1st.inflight.length : Int) ≤ c1cfg.max_requests + c1cfg.max_link_per_page + 1 ∧
    c1st.complete + (c1st.inflight.length : Int)
        ≤ c1cfg.max_total + c1cfg.max_link_per_page + 1 :=
  C1_caps_with_slack c1cfg c1web c1st (by decide) (by decide)
    (Relation.ReflTransGen.tail Relation.ReflTransGen.refl
      (Step.done (initState c1cfg) "http://x.example/start" (by decide)))

/-- C2: with `max_link_per_page = 2` and a page exposing five fresh
eligible links, `follow_links` schedules THREE fetches, not two: the
post-increment in `if (count++ == max_link_per_page) break` stops the loop
only after the (cap+1)-th schedule, contradicting the claim (and the
crawler's own usage text "Max # of links to follow per page"). -/
theorem C2_cap_plus_one_scheduled :
    (follow_links "http://m.example/base" 2 Graph.empty "http://m.example/base"
        ["http://m.example/base/a1", "http://m.example/base/a2", "http://m.example/base/a3",
         "http://m.example/base/a4", "http://m.example/base/a5"]).2.1 =
      ["http://m.example/base/a1", "http://m.example/base/a2", "http://m.example/base/a3"] := by
  decide

/-- C3: the seed URL is never pre-inserted into the dedup graph, so when
the seed page links to itself, `follow_links` finds the graph empty,
records the self-loop edge AND schedules the seed a second time: after the
seed's fetch completed (`complete = 1`) the same URL is in-flight again —
refuting "each URL is scheduled exactly once, including the self-loop
case" (and the source's own header claim "prevent revisiting the same url
more than once"). -/
theorem C3_seed_self_link_rescheduled :
    Reachable c3cfg c3web c3st ∧
    c3st.complete = 1 ∧
    c3st.inflight = ["http://self.example/loop"] ∧
    c3st.graph.edges = [("http://self.example/loop", "http://self.example/loop")] :=
  ⟨Relation.ReflTransGen.tail Relation.ReflTransGen.refl
      (Step.done (initState c3cfg) "http://self.example/loop" (by decide)),
    by decide, by decide, by decide⟩

/-- C4: with `max_total = 1`, processing the completed seed fetch (an HTML
page with one discoverable link) still schedules a further fetch: the
admission check reads `complete + pending = 0 < 1` because the counters
are only updated after link discovery and the in-flight seed was never
counted in `pending` — refuting the claim that no further fetch is
scheduled. -/
theorem C4_max_total_one_still_schedules :
    Reachable c4cfg c4web c4st ∧
    c4cfg.max_total = 1 ∧
    c4st.complete = 1 ∧
    c4st.inflight = ["http://t.example/aaaaaa/one"] :=
  ⟨Relation.ReflTransGen.tail Relation.ReflTransGen.refl
      (Step.done (initState c4cfg) "http://t.example/aaaaaa" (by decide)),
    by decide, by decide, by decide⟩

/-- C5 counterexample: a successful 200 HTML fetch processed while
admission fails (`max_requests = 0`) records NO edges, although the page
has a discoverable link whose edge `follow_links` would record — refuting
the claim that an over-cap page is still parsed and its edges recorded. -/
theorem C5_counterexample :
    is_html htmlCT = true ∧
    (follow_links "http://q.example/start" 20 Graph.empty "http://q.example/start"
        ["http://q.example/start/sub1"]).1.edges =
      [("http://q.example/start", "http://q.example/start/sub1")] ∧
    c5st.graph = Graph.empty ∧
    c5st.inflight = [] := by
  exact ⟨by decide, by decide, by decide, by decide⟩

/-- C5 (amended): a page fetched while the admission checks fail is not
parsed at all: `follow_links` is never invoked, so no edges are recorded
and no fetches are scheduled from it; only retirement happens. -/
theorem C5_overcap_skips_discovery (cfg : Config) (st : CrawlState) (url : String)
    (status : Int) (ctype : Option String) (bodySize : Nat) (hrefs : List String)
    (hadm : ¬ (st.pending < cfg.max_requests ∧ st.complete + st.pending < cfg.max_total)) :
    (handle_msg cfg st url (.ok status ctype bodySize hrefs)).graph = st.graph ∧
    (handle_msg cfg st url (.ok status ctype bodySize hrefs)).inflight
        = st.inflight.erase url := by
  rw [handle_msg_eq]
  simp only [discovery]
  rw [if_neg fun hcond => hadm hcond.2.2]
  exact ⟨rfl, by dsimp only; rw [List.append_nil]⟩

/-- C5 witness: the amended statement evaluated on the concrete over-cap
run of the counterexample. -/
theorem C5_overcap_skips_discovery_witness :
    (handle_msg c5cfg (initState c5cfg) "http://q.example/start"
        (.ok 200 htmlCT 200 ["http://q.example/start/sub1"])).graph
      = (initState c5cfg).graph ∧
    (handle_msg c5cfg (initState c5cfg) "http://q.example/start"
        (.ok 200 htmlCT 200 ["http://q.example/start/sub1"])).inflight
      = (initState c5cfg).inflight.erase "http://q.example/start" :=
  C5_overcap_skips_discovery c5cfg (initState c5cfg) "http://q.example/start"
    200 htmlCT 200 ["http://q.example/start/sub1"] (by decide)

/-- C6: for every page URL that does not begin with the seed URL string,
`follow_links` returns with the graph unchanged, no scheduled fetches and
count 0 (crawl.cpp line 117). -/
theorem C6_nonprefix_no_discovery (s : String) (cap : Nat) (g : Graph) (url : String)
    (hrefs : List String) (h : strPrefixOf s url = false) :
    follow_links s cap g url hrefs = (g, [], 0) := by
  simp [follow_links, h]

/-- C6 witness: a base URL on another host yields no edges and no
fetches even though the page exposes an eligible link. -/
theorem C6_witness :
    strPrefixOf "http://a.example/seed" "http://b.example/page" = false ∧
    follow_links "http://a.example/seed" 20 Graph.empty "http://b.example/page"
        ["http://a.example/seed/child"] = (Graph.empty, [], 0) :=
  ⟨by decide, C6_nonprefix_no_discovery "http://a.example/seed" 20 Graph.empty
      "http://b.example/page" ["http://a.example/seed/child"] (by decide)⟩

/-- C7: link discovery uses the fragment-stripped candidate as graph key —
processing any href is identical to processing its fragment-free form, and
stripping turns `u ++ "#" ++ frag` into `u` — and it discards every
candidate shorter than 20 characters after canonicalization as well as
every candidate whose scheme is not http or https (no edge, no fetch). -/
theorem C7_fragment_strip_and_filters :
    (∀ (cap : Nat) (url : String) (g : Graph) (c : Nat) (href : String) (rest : List String),
        follow_links_go cap url g c (href :: rest)
          = follow_links_go cap url g c (stripFrag href :: rest)) ∧
    (∀ (u f : String), (∀ ch ∈ u.data, ch ≠ '#') → stripFrag (u ++ "#" ++ f) = u) ∧
    (∀ (cap : Nat) (url : String) (g : Graph) (c : Nat) (href : String) (rest : List String),
        (stripFrag href).length < 20 →
        follow_links_go cap url g c (href :: rest) = follow_links_go cap url g c rest) ∧
    (∀ (cap : Nat) (url : String) (g : Graph) (c : Nat) (href : String) (rest : List String),
        ¬ (stripFrag href).length < 20 → isHttpLink (stripFrag href) = false →
        follow_links_go cap url g c (href :: rest) = follow_links_go cap url g c rest) := by
  refine ⟨?_, stripFrag_hash_append, ?_, ?_⟩
  · intro cap url g c href rest
    simp only [follow_links_go, stripFrag_idem]
  · intro cap url g c href rest h
    simp only [follow_links_go, if_pos h]
  · intro cap url g c href rest h1 h2
    simp only [follow_links_go, if_neg h1, h2]
    simp

/-- C7 witness: fragment stripping and both filters evaluated on concrete
candidates. -/
theorem C7_witness :
    stripFrag ("http://x.example/dir/page" ++ "#" ++ "frag") = "http://x.example/dir/page" ∧
    follow_links_go 20 "http://x.example/dir" Graph.empty 0 ["http://short#f"]
      = follow_links_go 20 "http://x.example/dir" Graph.empty 0 [] ∧
    follow_links_go 20 "http://x.example/dir" Graph.empty 0 ["ftp://x.example/dir/file.bin"]
      = follow_links_go 20 "http://x.example/dir" Graph.empty 0 [] :=
  ⟨C7_fragment_strip_and_filters.2.1 "http://x.example/dir/page" "frag" (by decide),
   C7_fragment_strip_and_filters.2.2.1 20 "http://x.example/dir" Graph.empty 0
     "http://short#f" [] (by decide),
   C7_fragment_strip_and_filters.2.2.2 20 "http://x.example/dir" Graph.empty 0
     "ftp://x.example/dir/file.bin" [] (by decide) (by decide)⟩

/-- C8: for every terminal result, a BrokenLink entry `(status, url)` is
appended exactly when the transport succeeded with a status other than
200; a transport failure appends nothing; in both cases the completion
counter increments. -/
theorem C8_broken_link_iff_non_200 (cfg : Config) (st : CrawlState) (url : String)
    (r : FetchResult) :
    (handle_msg cfg st url r).complete = st.complete + 1 ∧
    (handle_msg cfg st url r).broken_links
      = st.broken_links ++
          (match r with
           | .ok status _ _ _ => if status = 200 then [] else [(status, url)]
           | .fail => []) := by
  rw [handle_msg_eq]
  exact ⟨rfl, by cases r <;> simp [broken_of]⟩

/-- C9 counterexample: a run whose seed fetch fails at the transport level
reaches, after one step, `pending = -1` with zero in-flight requests —
refuting both "pending always equals the number of in-flight requests" and
"pending is never negative". -/
theorem C9_counterexample :
    Reachable c9cfg c9web c9st ∧
    c9st.pending = -1 ∧
    c9st.inflight.length = 0 ∧
    c9st.pending ≠ (c9st.inflight.length : Int) :=
  ⟨Relation.ReflTransGen.tail Relation.ReflTransGen.refl
      (Step.done (initState c9cfg) "http://n.example/start" (by decide)),
    by decide, by decide, by decide⟩

/-- C9 (amended): `pending` always equals the number of in-flight requests
MINUS ONE — the seed fetch is added without incrementing it — so it ends
at -1; and for every terminal request the updates are unconditional:
`complete` increments by one and `pending` changes by (scheduled count)
minus one, in every branch. -/
theorem C9_pending_off_by_one (cfg : Config) (web : String → FetchResult) (st : CrawlState)
    (h : Reachable cfg web st) :
    st.pending + 1 = (st.inflight.length : Int) ∧
    ∀ (url : String) (r : FetchResult),
      (handle_msg cfg st url r).complete = st.complete + 1 ∧
      ∃ k : Nat, k ≤ cfg.max_link_per_page + 1 ∧
        (handle_msg cfg st url r).pending = st.pending + k - 1 := by
  refine ⟨reachable_pi cfg web st h, ?_⟩
  intro url r
  rw [handle_msg_eq]
  exact ⟨rfl, (discovery cfg st url r).2.2, (discovery_spec cfg st url r).2, rfl⟩

/-- C9 witness: the amended invariant evaluated after the failing seed
fetch of the counterexample run. -/
theorem C9_pending_off_by_one_witness :
    c9st.pending + 1 = (c9st.inflight.length : Int) ∧
    (handle_msg c9cfg c9st "http://n.example/other" .fail).complete = c9st.complete + 1 :=
  ⟨(C9_pending_off_by_one c9cfg c9web c9st
      (Relation.ReflTransGen.tail Relation.ReflTransGen.refl
        (Step.done (initState c9cfg) "http://n.example/start" (by decide)))).1,
   ((C9_pending_off_by_one c9cfg c9web c9st
      (Relation.ReflTransGen.tail Relation.ReflTransGen.refl
        (Step.done (initState c9cfg) "http://n.example/start" (by decide)))).2
      "http://n.example/other" .fail).1⟩

/-- C10: a 200 response triggers link discovery only when `is_html`
accepts its content type, which requires strictly more than 10 characters
besides containing "text/html"; the 9-character string "text/html" itself
is rejected, and with `is_html` false no discovery happens: the graph is
unchanged and nothing new is in flight. -/
theorem C10_content_type_length_gate :
    is_html (some "text/html") = false ∧
    (∀ s : String, is_html (some s)
        = (decide (10 < s.length) && hasInfix "text/html".data s.data)) ∧
    (∀ (cfg : Config) (st : CrawlState) (url : String) (bodySize : Nat)
        (hrefs : List String) (ctype : Option String), is_html ctype = false →
      (handle_msg cfg st url (.ok 200 ctype bodySize hrefs)).graph = st.graph ∧
      (handle_msg cfg st url (.ok 200 ctype bodySize hrefs)).inflight
          = st.inflight.erase url) := by
  refine ⟨by decide, fun s => rfl, ?_⟩
  intro cfg st url bodySize hrefs ctype hct
  rw [handle_msg_eq]
  simp only [discovery]
  rw [if_neg fun hcond => by rw [hct] at hcond; exact absurd hcond.2.1.1 (by decide)]
  exact ⟨rfl, by dsimp only; rw [List.append_nil]⟩

/-- C10 witness: a 200 response whose content type is exactly "text/html"
with a large HTML body and an eligible link yields no discovery. -/
theorem C10_witness :
    is_html (some "text/html") = false ∧
    (handle_msg c10cfg (initState c10cfg) "http://h.example/start"
        (.ok 200 (some "text/html") 500 ["http://h.example/start/child"])).graph
      = (initState c10cfg).graph ∧
    (handle_msg c10cfg (initState c10cfg) "http://h.example/start"
        (.ok 200 (some "text/html") 500 ["http://h.example/start/child"])).inflight
      = (initState c10cfg).inflight.erase "http://h.example/start" :=
  ⟨C10_content_type_length_gate.1,
   (C10_content_type_length_gate.2.2 c10cfg (initState c10cfg) "http://h.example/start"
      500 ["http://h.example/start/child"] (some "text/html") (by decide)).1,
   (C10_content_type_length_gate.2.2 c10cfg (initState c10cfg) "http://h.example/start"
      500 ["http://h.example/start/child"] (some "text/html") (by decide)).2⟩

end Crawl
